import Mathlib

/-!
Shallow embedding of `src/pygmsh/opencascade/geometry.py` (class `Geometry`):
the deferred-action queues, the script-mode boolean engine
(`_boolean_operation` / `boolean_fragments`), the primitive `add_<shape>`
factories, and the direct-kernel boolean operations
(`boolean_intersection`, `boolean_union`, `boolean_difference`).

Python methods mutating `self` become functions `Geometry → ... → Geometry × result`.
A Python statement raising an exception (failed `assert`, out-of-range index,
calling `None`) becomes an `Except` error value; the exceptions are named after
the error conditions of the specification (IllegalDimension,
IncompatibleDimension, InconsistentBooleanResult) plus the raw Python
IndexError / TypeError where the source raises those.

The external gmsh kernel is modelled as an oracle `KernelCall → List DimTag`:
each direct kernel entry point (`intersect`, `fuse`, `cut`) is a `KernelCall`
value, and the oracle gives the list of result dim-tag groups the kernel
returns (the source discards the second return component, the input→output
mapping, via `out, _ = ...`). Every direct-kernel operation also returns the
list of kernel calls it issued, in order, so call counts can be stated.
-/

/-- A kernel dim-tag handle: a (dimension, kernel-tag) pair. In
`geometry.py` each already-synchronized entity carries one such handle as its
`dim_tags` attribute, and the kernel returns lists of them. -/
abbrev DimTag := Nat × Nat

/-- Modelled from the spec: the abstract Entity record of the data model
(`dimension`, `id`, `dim_tags`, `is_list`) plus the `code` string a shape
class generates for the command stream. The shape classes (`rectangle.py`,
`box.py`, ..., `surface_base.py`) are imported by `geometry.py` but are not
part of the given source, so the record stores these attributes opaquely. -/
structure Entity where
  dimension : Nat
  id : String
  dim_tags : DimTag
  code : String
  is_list : Bool
deriving DecidableEq, Repr

/-- Modelled from the spec: shape class `Rectangle`, a planar (dimension-2)
primitive; `id`, `dim_tags` and `code` come from the missing shape module. -/
def Rectangle (id : String) (dim_tags : DimTag) (code : String) : Entity :=
  ⟨2, id, dim_tags, code, false⟩

/-- Modelled from the spec: shape class `Disk` (dimension 2). -/
def Disk (id : String) (dim_tags : DimTag) (code : String) : Entity :=
  ⟨2, id, dim_tags, code, false⟩

/-- Modelled from the spec: shape class `Ball` (dimension 3). -/
def Ball (id : String) (dim_tags : DimTag) (code : String) : Entity :=
  ⟨3, id, dim_tags, code, false⟩

/-- Modelled from the spec: shape class `Box` (dimension 3). -/
def Box (id : String) (dim_tags : DimTag) (code : String) : Entity :=
  ⟨3, id, dim_tags, code, false⟩

/-- Modelled from the spec: shape class `Cone` (dimension 3). -/
def Cone (id : String) (dim_tags : DimTag) (code : String) : Entity :=
  ⟨3, id, dim_tags, code, false⟩

/-- Modelled from the spec: shape class `Cylinder` (dimension 3). -/
def Cylinder (id : String) (dim_tags : DimTag) (code : String) : Entity :=
  ⟨3, id, dim_tags, code, false⟩

/-- Modelled from the spec: shape class `Ellipsoid` (dimension 3). -/
def Ellipsoid (id : String) (dim_tags : DimTag) (code : String) : Entity :=
  ⟨3, id, dim_tags, code, false⟩

/-- Modelled from the spec: shape class `Torus` (dimension 3). -/
def Torus (id : String) (dim_tags : DimTag) (code : String) : Entity :=
  ⟨3, id, dim_tags, code, false⟩

/-- Modelled from the spec: shape class `Wedge` (dimension 3). -/
def Wedge (id : String) (dim_tags : DimTag) (code : String) : Entity :=
  ⟨3, id, dim_tags, code, false⟩

/-- Errors raised by the methods of `Geometry`. The source raises bare
`AssertionError`s; they are distinguished here by the assert site, using the
specification's names for the three validation/consistency conditions. -/
inductive PyError where
  /-- `assert dim is not None, "Illegal input type ..."` in `_boolean_operation`. -/
  | IllegalDimension
  /-- `assert e.dimension == dim, "Incompatible input type ..."` in `_boolean_operation`. -/
  | IncompatibleDimension
  /-- the result-shape asserts of `boolean_intersection` / `boolean_difference`. -/
  | InconsistentBooleanResult
  /-- Python `IndexError` from indexing `[0]` into an empty list. -/
  | IndexError
  /-- Python `TypeError` from calling `None` (the `"Line"` entry of `mapping`). -/
  | TypeError
deriving DecidableEq, Repr

/-- The entity `_boolean_operation` returns: `mapping[legal_dim_types[dim]](id0=name, is_list=True)`,
where `mapping = \x7b"Line": None, "Surface": SurfaceBase, "Volume": VolumeBase\x7d`.
`SurfaceBase` / `VolumeBase` are modelled from the spec (their modules are not
in the given source): each stores the `id0` name and the `is_list` flag. -/
inductive BoolResultEnt where
  | surface (id0 : String) (is_list : Bool)
  | volume (id0 : String) (is_list : Bool)
deriving DecidableEq, Repr

/-- Modelled from the spec: class `Boolean` (module `boolean.py`, not in the
given source): a composite entity wrapping the operation label and the
resulting dim-tag group(s). -/
structure BooleanEnt where
  dim_tags : List DimTag
  label : String
deriving DecidableEq, Repr

/-- A direct kernel call issued by the direct-kernel boolean operations,
with the exact arguments the source passes:
`gmsh.model.occ.intersect([ent], [e.dim_tags], removeObject=True, removeTool=True)`,
`gmsh.model.occ.fuse([entities[0].dim_tags], [e.dim_tags for e in entities[1:]], ...)`,
`gmsh.model.occ.cut(d0.dim_tags, d1.dim_tags)`. -/
inductive KernelCall where
  | intersect (objects tools : List DimTag) (removeObject removeTool : Bool)
  | fuse (objects tools : List DimTag) (removeObject removeTool : Bool)
  | cut (objects tools : DimTag)
deriving DecidableEq, Repr

/-- The kernel oracle: the list of result dim-tag groups the kernel returns
for a given call (first component of the pair the gmsh API returns; the
second, the input-to-output mapping, is discarded by the source). -/
abbrev KernelOracle := KernelCall → List DimTag

/-- The mutable state of a `Geometry` object: the seven queues set up by
`__init__`, plus `_BOOLEAN_ID` and `_GMSH_CODE`, which the methods
`_boolean_operation` and `add_cylinder`/... use. The elements of the five
queues never touched in the given source are opaque (`Nat`). -/
structure Geometry where
  AFTER_SYNC_QUEUE : List Nat
  EMBED_QUEUE : List Nat
  COMPOUND_ENTITIES : List Nat
  RECOMBINE_ENTITIES : List Nat
  TRANSFINITE_CURVE_QUEUE : List Nat
  TRANSFINITE_SURFACE_QUEUE : List Nat
  SIZE_QUEUE : List (Entity × Int)
  BOOLEAN_ID : Nat
  GMSH_CODE : List String
deriving DecidableEq, Repr

/-- Python `__init__`: sets the seven queues to empty (the `gmsh.initialize()`
call and the two characteristic-length options touch only the external kernel
session, not this state). The source `__init__` does not initialize
`_BOOLEAN_ID` or `_GMSH_CODE` even though other methods read them.
Modelled from the spec for those two fields: the IDAllocator's counter starts
so that "the Nth boolean op's output name embeds N" (hence 0, as the counter
is pre-incremented), and the command stream starts empty. -/
def Geometry.init : Geometry :=
  ⟨[], [], [], [], [], [], [], 0, []⟩

/-- `add_rectangle(self, *args, mesh_size=None, **kwargs)`: builds the entity,
appends `(entity, mesh_size)` to `_SIZE_QUEUE` when `mesh_size` is given, and
returns the entity. The opaque constructor arguments are the `id`/`dim_tags`/
`code` attributes of the entity the missing shape class would build. -/
def Geometry.add_rectangle (g : Geometry) (id : String) (dim_tags : DimTag)
    (code : String) (mesh_size : Option Int) : Geometry × Entity :=
  let entity := Rectangle id dim_tags code
  match mesh_size with
  | some m => ({ g with SIZE_QUEUE := g.SIZE_QUEUE ++ [(entity, m)] }, entity)
  | none => (g, entity)

/-- `add_disk`: same shape as `add_rectangle`. -/
def Geometry.add_disk (g : Geometry) (id : String) (dim_tags : DimTag)
    (code : String) (mesh_size : Option Int) : Geometry × Entity :=
  let entity := Disk id dim_tags code
  match mesh_size with
  | some m => ({ g with SIZE_QUEUE := g.SIZE_QUEUE ++ [(entity, m)] }, entity)
  | none => (g, entity)

/-- `add_ball`: same shape as `add_rectangle` (the local variable is named
`cone` in the source). -/
def Geometry.add_ball (g : Geometry) (id : String) (dim_tags : DimTag)
    (code : String) (mesh_size : Option Int) : Geometry × Entity :=
  let cone := Ball id dim_tags code
  match mesh_size with
  | some m => ({ g with SIZE_QUEUE := g.SIZE_QUEUE ++ [(cone, m)] }, cone)
  | none => (g, cone)

/-- `add_box`: same shape as `add_rectangle`. -/
def Geometry.add_box (g : Geometry) (id : String) (dim_tags : DimTag)
    (code : String) (mesh_size : Option Int) : Geometry × Entity :=
  let box := Box id dim_tags code
  match mesh_size with
  | some m => ({ g with SIZE_QUEUE := g.SIZE_QUEUE ++ [(box, m)] }, box)
  | none => (g, box)

/-- `add_cone`: same shape as `add_rectangle`. -/
def Geometry.add_cone (g : Geometry) (id : String) (dim_tags : DimTag)
    (code : String) (mesh_size : Option Int) : Geometry × Entity :=
  let cone := Cone id dim_tags code
  match mesh_size with
  | some m => ({ g with SIZE_QUEUE := g.SIZE_QUEUE ++ [(cone, m)] }, cone)
  | none => (g, cone)

/-- `add_cylinder(self, *args, **kwargs)`: no `mesh_size` parameter; appends
`p.code` to `_GMSH_CODE` and returns the entity. -/
def Geometry.add_cylinder (g : Geometry) (id : String) (dim_tags : DimTag)
    (code : String) : Geometry × Entity :=
  let p := Cylinder id dim_tags code
  ({ g with GMSH_CODE := g.GMSH_CODE ++ [p.code] }, p)

/-- `add_ellipsoid`: same shape as `add_cylinder`. -/
def Geometry.add_ellipsoid (g : Geometry) (id : String) (dim_tags : DimTag)
    (code : String) : Geometry × Entity :=
  let p := Ellipsoid id dim_tags code
  ({ g with GMSH_CODE := g.GMSH_CODE ++ [p.code] }, p)

/-- `add_torus`: same shape as `add_cylinder`. -/
def Geometry.add_torus (g : Geometry) (id : String) (dim_tags : DimTag)
    (code : String) : Geometry × Entity :=
  let p := Torus id dim_tags code
  ({ g with GMSH_CODE := g.GMSH_CODE ++ [p.code] }, p)

/-- `add_wedge`: same shape as `add_cylinder`. -/
def Geometry.add_wedge (g : Geometry) (id : String) (dim_tags : DimTag)
    (code : String) : Geometry × Entity :=
  let p := Wedge id dim_tags code
  ({ g with GMSH_CODE := g.GMSH_CODE ++ [p.code] }, p)

/-- The formatted operand group of `_boolean_operation`:
`";".join([f"T\x7b\x7be.id\x7d\x7d" for e in entities]) + ";"` when `entities` is
nonempty, else the empty string. -/
def formatEntities (legal_dim_type : String) (entities : List Entity) : String :=
  match entities with
  | [] => ""
  | _ =>
    String.intercalate ";"
      (entities.map (fun e => legal_dim_type ++ "\x7b" ++ e.id ++ "\x7d")) ++ ";"

/-- `_boolean_operation(self, operation, input_entities, tool_entities,
delete_first=True, delete_other=True)`, statement by statement:
1. `self._BOOLEAN_ID += 1` (before any validation);
2. the dimension scan over `\x7b1: "Line", 2: "Surface", 3: "Volume"\x7d` and the
   `assert dim is not None` (IllegalDimension); indexing `input_entities[0]`
   raises IndexError on an empty input list;
3. `assert e.dimension == dim` for every `e` in
   `input_entities[1:] + tool_entities` (IncompatibleDimension);
4. `name = f"bo\x7bself._BOOLEAN_ID\x7d"`, the two delete flags, the formatted
   operand groups, and the append of the command to `self._GMSH_CODE`;
5. `mapping[legal_dim_types[dim]](id0=name, is_list=True)` — `None` for
   dimension 1, hence TypeError there; `SurfaceBase` / `VolumeBase` otherwise. -/
def Geometry.boolean_operation (g : Geometry) (operation : String)
    (input_entities tool_entities : List Entity)
    (delete_first delete_other : Bool) :
    Geometry × Except PyError BoolResultEnt :=
  let g1 : Geometry := { g with BOOLEAN_ID := g.BOOLEAN_ID + 1 }
  match input_entities with
  | [] => (g1, .error .IndexError)
  | e0 :: _ =>
    if e0.dimension = 1 ∨ e0.dimension = 2 ∨ e0.dimension = 3 then
      if (input_entities.tail ++ tool_entities).all
          (fun e => e.dimension == e0.dimension) then
        let dim := e0.dimension
        let name := "bo" ++ toString g1.BOOLEAN_ID
        let input_delete := if delete_first then "Delete;" else ""
        let tool_delete := if delete_other then "Delete;" else ""
        let legal_dim_type :=
          if dim = 1 then "Line" else if dim = 2 then "Surface" else "Volume"
        let formatted_input_entities := formatEntities legal_dim_type input_entities
        let formatted_tool_entities := formatEntities legal_dim_type tool_entities
        let cmd := name ++ "[] = " ++ operation ++ "\x7b " ++
          formatted_input_entities ++ " " ++ input_delete ++ " \x7d \x7b " ++
          formatted_tool_entities ++ " " ++ tool_delete ++ "\x7d;"
        let g2 : Geometry := { g1 with GMSH_CODE := g1.GMSH_CODE ++ [cmd] }
        if dim = 1 then (g2, .error .TypeError)
        else if dim = 2 then (g2, .ok (.surface name true))
        else (g2, .ok (.volume name true))
      else (g1, .error .IncompatibleDimension)
    else (g1, .error .IllegalDimension)

/-- `boolean_fragments(self, *args, **kwargs)`: delegates to
`_boolean_operation("BooleanFragments", ...)`. -/
def Geometry.boolean_fragments (g : Geometry)
    (input_entities tool_entities : List Entity)
    (delete_first delete_other : Bool) :
    Geometry × Except PyError BoolResultEnt :=
  g.boolean_operation "BooleanFragments" input_entities tool_entities
    delete_first delete_other

/-- The loop of `boolean_intersection`: starting from `ent = entities[0].dim_tags`,
for each further entity `e` call
`out, _ = gmsh.model.occ.intersect([ent], [e.dim_tags], removeObject=True, removeTool=True)`,
then `assert all(out[0] == item for item in out)` (vacuously true on an empty
`out`, InconsistentBooleanResult when some item differs from the first), then
`ent = out[0]` (IndexError on an empty `out`). Returns the final `ent` or the
error, together with the kernel calls issued, in order. -/
def intersectLoop (K : KernelOracle) (ent : DimTag) (rest : List Entity) :
    Except PyError DimTag × List KernelCall :=
  match rest with
  | [] => (.ok ent, [])
  | e :: rest' =>
    let call := KernelCall.intersect [ent] [e.dim_tags] true true
    match K call with
    | [] => (.error .IndexError, [call])
    | o :: os =>
      if (o :: os).all (fun item => item == o) then
        let r := intersectLoop K o rest'
        (r.1, call :: r.2)
      else (.error .InconsistentBooleanResult, [call])

/-- `boolean_intersection(self, entities)`: `ent = entities[0].dim_tags`
(IndexError on an empty list), the pairwise fold `intersectLoop`, then
`return Boolean([ent], "Intersection")`. The method reads and writes no
attribute of `self`, so the state is returned unchanged; the third component
is the list of kernel calls issued. -/
def Geometry.boolean_intersection (g : Geometry) (K : KernelOracle)
    (entities : List Entity) :
    Geometry × Except PyError BooleanEnt × List KernelCall :=
  match entities with
  | [] => (g, .error .IndexError, [])
  | e0 :: rest =>
    let r := intersectLoop K e0.dim_tags rest
    match r.1 with
    | .ok ent => (g, .ok ⟨[ent], "Intersection"⟩, r.2)
    | .error err => (g, .error err, r.2)

/-- `boolean_union(self, entities)`: a single call
`out, _ = gmsh.model.occ.fuse([entities[0].dim_tags], [e.dim_tags for e in entities[1:]],
removeObject=True, removeTool=True)` (IndexError on an empty list), then
`return Boolean(out, "Union")` with the raw output list. No attribute of
`self` is read or written. -/
def Geometry.boolean_union (g : Geometry) (K : KernelOracle)
    (entities : List Entity) :
    Geometry × Except PyError BooleanEnt × List KernelCall :=
  match entities with
  | [] => (g, .error .IndexError, [])
  | e0 :: rest =>
    let call := KernelCall.fuse [e0.dim_tags] (rest.map (fun e => e.dim_tags)) true true
    let out := K call
    (g, .ok ⟨out, "Union"⟩, [call])

/-- `boolean_difference(self, d0, d1)`: the two `print` statements touch only
stdout; then a single call `out, _ = gmsh.model.occ.cut(d0.dim_tags, d1.dim_tags)`,
then `assert len(out) == 1` (InconsistentBooleanResult otherwise), then
`return Boolean(out, "Difference")`. No attribute of `self` is read or
written. -/
def Geometry.boolean_difference (g : Geometry) (K : KernelOracle)
    (d0 d1 : Entity) :
    Geometry × Except PyError BooleanEnt × List KernelCall :=
  let call := KernelCall.cut d0.dim_tags d1.dim_tags
  let out := K call
  if out.length = 1 then (g, .ok ⟨out, "Difference"⟩, [call])
  else (g, .error .InconsistentBooleanResult, [call])

/-- The arguments of one script-mode boolean-operation call. -/
structure BoolArgs where
  operation : String
  input_entities : List Entity
  tool_entities : List Entity
  delete_first : Bool
  delete_other : Bool
deriving DecidableEq, Repr

/-- Run a sequence of script-mode boolean operations on one model, collecting
each call's result. -/
def runBooleanOps (g : Geometry) (calls : List BoolArgs) :
    Geometry × List (Except PyError BoolResultEnt) :=
  match calls with
  | [] => (g, [])
  | c :: cs =>
    let r := g.boolean_operation c.operation c.input_entities c.tool_entities
      c.delete_first c.delete_other
    let rest := runBooleanOps r.1 cs
    (rest.1, r.2 :: rest.2)

/-- Observer: the boolean id allocated by each call of a sequence (the value
`_BOOLEAN_ID` holds while the call runs, i.e. after its increment). -/
def allocatedIds (g : Geometry) (calls : List BoolArgs) : List Nat :=
  match calls with
  | [] => []
  | c :: cs =>
    (g.BOOLEAN_ID + 1) ::
      allocatedIds (g.boolean_operation c.operation c.input_entities
        c.tool_entities c.delete_first c.delete_other).1 cs

/-- Observer: a kernel response list is fragmented into more than one distinct
dim-tag group, i.e. some element differs from the first (exactly the negation
of the uniformity assert of `boolean_intersection`). -/
def fragmentedOut (out : List DimTag) : Bool :=
  match out with
  | [] => false
  | o :: os => !((o :: os).all (fun item => item == o))

/-- Spec-side definition for the refinement claim about `boolean_intersection`
(follows the specification's words, to be compared with the source-side
`intersectLoop`): a left fold that starts from the first operand's dim-tag,
and for each subsequent operand issues one pairwise intersect call of the
running result against that operand, with both remove flags set, taking the
head of the kernel's response as the new running result. Returns the final
running result and the calls issued. Meaningful when every response is a
single uniform nonempty group, which is the hypothesis of the claim. -/
def specLeftFold (K : KernelOracle) (ent : DimTag) (rest : List Entity) :
    DimTag × List KernelCall :=
  match rest with
  | [] => (ent, [])
  | e :: rest' =>
    let call := KernelCall.intersect [ent] [e.dim_tags] true true
    let next := (K call).headD ent
    let r := specLeftFold K next rest'
    (r.1, call :: r.2)

/-- Concrete dimension-2 entity used in closed instances. -/
def rectEx : Entity := Rectangle "rect1" (2, 1) "Rectangle-code"

/-- Concrete dimension-3 entity used in closed instances. -/
def boxEx : Entity := Box "box1" (3, 1) "Box-code"

/-- Concrete dimension-3 entities used in closed instances. -/
def ballEx1 : Entity := Ball "ball1" (3, 1) "Ball-code-1"

/-- Second concrete dimension-3 entity. -/
def ballEx2 : Entity := Ball "ball2" (3, 2) "Ball-code-2"

/-- Third concrete dimension-3 entity. -/
def ballEx3 : Entity := Ball "ball3" (3, 3) "Ball-code-3"

/-- A kernel oracle whose every response is one single group. -/
def oracleOne : KernelOracle := fun _ => [(3, 7)]

/-- A kernel oracle whose every response has two distinct groups. -/
def oracleTwo : KernelOracle := fun _ => [(3, 1), (3, 2)]

/-- C7: for every single-element entity list `[A]`, `boolean_intersection`
performs zero kernel calls (empty call log) and returns A's dim-tag wrapped
directly as an "Intersection" composite entity, with the state untouched. -/
theorem c7_singleton_intersection (g : Geometry) (K : KernelOracle) (A : Entity) :
    g.boolean_intersection K [A] = (g, .ok ⟨[A.dim_tags], "Intersection"⟩, []) := rfl

/-- C9: for every nonempty entity list, `boolean_union` issues exactly one
N-ary kernel fuse call — first operand's dim-tags as object, all remaining
operands' dim-tags as tools, `removeObject` and `removeTool` both true — and
returns a composite entity labeled "Union" wrapping the kernel's raw output
dim-tag list unchanged (and the state untouched). -/
theorem c9_union_single_fuse (g : Geometry) (K : KernelOracle)
    (e0 : Entity) (rest : List Entity) :
    g.boolean_union K (e0 :: rest) =
      (g,
       .ok ⟨K (KernelCall.fuse [e0.dim_tags] (rest.map (fun e => e.dim_tags)) true true),
            "Union"⟩,
       [KernelCall.fuse [e0.dim_tags] (rest.map (fun e => e.dim_tags)) true true]) := rfl

/-- C8: `boolean_difference(A, B)` issues the single binary kernel cut call
`cut(A.dim_tags, B.dim_tags)`; when the kernel returns exactly one result
group it returns that group wrapped as a "Difference" composite, and when the
kernel returns zero or more than one group it fails with
InconsistentBooleanResult. -/
theorem c8_difference_cut (g : Geometry) (K : KernelOracle) (d0 d1 : Entity) :
    (g.boolean_difference K d0 d1).2.2 = [KernelCall.cut d0.dim_tags d1.dim_tags] ∧
    ((K (KernelCall.cut d0.dim_tags d1.dim_tags)).length = 1 →
      (g.boolean_difference K d0 d1).2.1 =
        .ok ⟨K (KernelCall.cut d0.dim_tags d1.dim_tags), "Difference"⟩) ∧
    ((K (KernelCall.cut d0.dim_tags d1.dim_tags)).length ≠ 1 →
      (g.boolean_difference K d0 d1).2.1 = .error .InconsistentBooleanResult) := by
  simp only [Geometry.boolean_difference]
  refine ⟨by split <;> rfl, fun h => by simp [h], fun h => by simp [h]⟩

/-- Witness for C8 at concrete inputs: a one-group kernel response yields the
"Difference" composite, a two-group response yields
InconsistentBooleanResult. -/
theorem c8_difference_cut_witness :
    (Geometry.init.boolean_difference oracleOne ballEx1 ballEx2).2.1 =
      .ok ⟨[(3, 7)], "Difference"⟩ ∧
    (Geometry.init.boolean_difference oracleTwo ballEx1 ballEx2).2.1 =
      .error .InconsistentBooleanResult :=
  ⟨(c8_difference_cut Geometry.init oracleOne ballEx1 ballEx2).2.1 (by decide),
   (c8_difference_cut Geometry.init oracleTwo ballEx1 ballEx2).2.2 (by decide)⟩

/-- C10: the direct-kernel operations `boolean_intersection`, `boolean_union`
and `boolean_difference` read and write no attribute of the model: whatever
the oracle and operands, the returned state equals the input state — in
particular the boolean id counter and all six deferred queues are unchanged,
on success and on failure alike. -/
theorem c10_direct_kernel_frame (g : Geometry) (K : KernelOracle)
    (entities : List Entity) (d0 d1 : Entity) :
    (g.boolean_intersection K entities).1 = g ∧
    (g.boolean_union K entities).1 = g ∧
    (g.boolean_difference K d0 d1).1 = g := by
  refine ⟨?_, ?_, ?_⟩
  · rcases entities with _ | ⟨e0, rest⟩
    · rfl
    · simp only [Geometry.boolean_intersection]
      split <;> rfl
  · rcases entities with _ | ⟨e0, rest⟩ <;> rfl
  · simp only [Geometry.boolean_difference]
    split <;> rfl

/-- C3 counterexample: `add_cylinder` does not follow the claimed pattern at
a concrete input: it has no `mesh_size` handling (the size queue stays
empty) and its one side effect is appending the shape's code to the command
stream — a kernel command emitted before synchronization. -/
theorem c3_add_cylinder_counterexample :
    (Geometry.init.add_cylinder "cyl1" (3, 4) "Cylinder-code").1.SIZE_QUEUE = [] ∧
    (Geometry.init.add_cylinder "cyl1" (3, 4) "Cylinder-code").1.GMSH_CODE =
      ["Cylinder-code"] := by
  exact ⟨rfl, rfl⟩

/-- C3 amended: only `add_rectangle`, `add_disk`, `add_ball`, `add_box` and
`add_cone` accept an optional `mesh_size`; with `mesh_size` provided each
returns the new entity and appends exactly one `(entity, mesh_size)` entry to
the size queue as its only side effect (no other field changes, so no kernel
command is emitted), and without it nothing changes. `add_cylinder`,
`add_ellipsoid`, `add_torus` and `add_wedge` take no `mesh_size` and instead
append the shape's code string to the command stream. -/
theorem c3_add_shape_effects (g : Geometry) (id : String) (dt : DimTag)
    (code : String) (m : Int) :
    (g.add_rectangle id dt code (some m) =
      ({ g with SIZE_QUEUE := g.SIZE_QUEUE ++ [(Rectangle id dt code, m)] },
        Rectangle id dt code) ∧
     g.add_rectangle id dt code none = (g, Rectangle id dt code)) ∧
    (g.add_disk id dt code (some m) =
      ({ g with SIZE_QUEUE := g.SIZE_QUEUE ++ [(Disk id dt code, m)] },
        Disk id dt code) ∧
     g.add_disk id dt code none = (g, Disk id dt code)) ∧
    (g.add_ball id dt code (some m) =
      ({ g with SIZE_QUEUE := g.SIZE_QUEUE ++ [(Ball id dt code, m)] },
        Ball id dt code) ∧
     g.add_ball id dt code none = (g, Ball id dt code)) ∧
    (g.add_box id dt code (some m) =
      ({ g with SIZE_QUEUE := g.SIZE_QUEUE ++ [(Box id dt code, m)] },
        Box id dt code) ∧
     g.add_box id dt code none = (g, Box id dt code)) ∧
    (g.add_cone id dt code (some m) =
      ({ g with SIZE_QUEUE := g.SIZE_QUEUE ++ [(Cone id dt code, m)] },
        Cone id dt code) ∧
     g.add_cone id dt code none = (g, Cone id dt code)) ∧
    g.add_cylinder id dt code =
      ({ g with GMSH_CODE := g.GMSH_CODE ++ [code] }, Cylinder id dt code) ∧
    g.add_ellipsoid id dt code =
      ({ g with GMSH_CODE := g.GMSH_CODE ++ [code] }, Ellipsoid id dt code) ∧
    g.add_torus id dt code =
      ({ g with GMSH_CODE := g.GMSH_CODE ++ [code] }, Torus id dt code) ∧
    g.add_wedge id dt code =
      ({ g with GMSH_CODE := g.GMSH_CODE ++ [code] }, Wedge id dt code) := by
  exact ⟨⟨rfl, rfl⟩, ⟨rfl, rfl⟩, ⟨rfl, rfl⟩, ⟨rfl, rfl⟩, ⟨rfl, rfl⟩, rfl, rfl, rfl, rfl⟩

/-- Helper: from "if all of `rest` have dimension `d` then some tool does
not", produce a mismatching entity among `rest` or `tools`. -/
theorem exists_mismatch_of_imp {d : Nat} {rest tools : List Entity}
    (h2 : (∀ x ∈ rest, x.dimension = d) → ∃ x ∈ tools, ¬x.dimension = d) :
    ∃ x, (x ∈ rest ∨ x ∈ tools) ∧ ¬x.dimension = d := by
  by_cases hall : ∀ x ∈ rest, x.dimension = d
  · obtain ⟨x, hx, hnx⟩ := h2 hall
    exact ⟨x, Or.inr hx, hnx⟩
  · push_neg at hall
    obtain ⟨x, hx, hnx⟩ := hall
    exact ⟨x, Or.inl hx, hnx⟩

/-- C4: for a script-mode boolean operation on a nonempty input list, the
IllegalDimension failure happens exactly when the first input entity's
dimension lies outside \x7b1, 2, 3\x7d; the IncompatibleDimension failure happens
exactly when the first dimension is legal but some remaining input or tool
entity has a different dimension; otherwise validation succeeds and the
operation proceeds to emit its command. -/
theorem c4_dimension_validation (g : Geometry) (op : String) (e0 : Entity)
    (rest tools : List Entity) (df dl : Bool) :
    ((g.boolean_operation op (e0 :: rest) tools df dl).2 = .error .IllegalDimension ↔
      ¬(e0.dimension = 1 ∨ e0.dimension = 2 ∨ e0.dimension = 3)) ∧
    ((g.boolean_operation op (e0 :: rest) tools df dl).2 = .error .IncompatibleDimension ↔
      ((e0.dimension = 1 ∨ e0.dimension = 2 ∨ e0.dimension = 3) ∧
        ∃ e ∈ rest ++ tools, e.dimension ≠ e0.dimension)) ∧
    (((e0.dimension = 1 ∨ e0.dimension = 2 ∨ e0.dimension = 3) ∧
        ∀ e ∈ rest ++ tools, e.dimension = e0.dimension) →
      ∃ cmd, (g.boolean_operation op (e0 :: rest) tools df dl).1.GMSH_CODE =
        g.GMSH_CODE ++ [cmd]) := by
  simp only [Geometry.boolean_operation, List.tail_cons]
  split_ifs with h1 h2 <;>
    simp_all [List.all_eq_true] <;>
    first
      | exact fun x hx => hx.elim (h2.1 x) (h2.2 x)
      | exact exists_mismatch_of_imp h2

/-- Witness for C4 at concrete inputs: a dimension-2 rectangle against a
dimension-3 box fails with IncompatibleDimension; with a dimension-0 first
operand the failure is IllegalDimension. -/
theorem c4_dimension_validation_witness :
    (Geometry.init.boolean_operation "BooleanFragments" [rectEx] [boxEx] true true).2 =
      .error .IncompatibleDimension ∧
    (Geometry.init.boolean_operation "BooleanFragments"
        [⟨0, "pt1", (0, 1), "", false⟩] [] true true).2 = .error .IllegalDimension := by
  constructor
  · exact (c4_dimension_validation Geometry.init "BooleanFragments" rectEx [] [boxEx]
      true true).2.1.mpr (by decide)
  · exact (c4_dimension_validation Geometry.init "BooleanFragments"
      ⟨0, "pt1", (0, 1), "", false⟩ [] [] true true).1.mpr (by decide)

/-- C1 counterexample: `boolean_fragments` on a 2-D rectangle input and a 3-D
box tool fails dimension validation with IncompatibleDimension, yet the model
state is NOT unchanged: `_BOOLEAN_ID += 1` runs before the validation, so the
id counter has moved from 0 to 1 — a new boolean id was allocated by the
failed call. -/
theorem c1_counterexample :
    (Geometry.init.boolean_fragments [rectEx] [boxEx] true true).2 =
      .error .IncompatibleDimension ∧
    (Geometry.init.boolean_fragments [rectEx] [boxEx] true true).1 ≠ Geometry.init ∧
    (Geometry.init.boolean_fragments [rectEx] [boxEx] true true).1.BOOLEAN_ID = 1 ∧
    Geometry.init.BOOLEAN_ID = 0 := by
  refine ⟨rfl, by decide, rfl, rfl⟩

/-- C1 amended: a script-mode boolean operation whose dimension validation
fails (IllegalDimension or IncompatibleDimension) mutates no deferred queue
and emits no kernel command — the resulting state differs from the input
state exactly in the boolean id counter, which has already been incremented
by one, because `self._BOOLEAN_ID += 1` is executed before the validation. -/
theorem c1_failed_validation_effects (g : Geometry) (op : String)
    (inputs tools : List Entity) (df dl : Bool)
    (h : (g.boolean_operation op inputs tools df dl).2 = .error .IllegalDimension ∨
         (g.boolean_operation op inputs tools df dl).2 = .error .IncompatibleDimension) :
    (g.boolean_operation op inputs tools df dl).1 =
      { g with BOOLEAN_ID := g.BOOLEAN_ID + 1 } := by
  rcases inputs with _ | ⟨e0, rest⟩
  · simp [Geometry.boolean_operation] at h
  · simp only [Geometry.boolean_operation, List.tail_cons] at h ⊢
    split_ifs at h ⊢ <;> simp_all

/-- Witness for C1 amended, at the rectangle/box input of the counterexample:
the state after the failed call is the initial state with the id counter
bumped to 1. -/
theorem c1_failed_validation_effects_witness :
    (Geometry.init.boolean_operation "BooleanFragments" [rectEx] [boxEx] true true).1 =
      { Geometry.init with BOOLEAN_ID := Geometry.init.BOOLEAN_ID + 1 } :=
  c1_failed_validation_effects Geometry.init "BooleanFragments" [rectEx] [boxEx]
    true true (Or.inr rfl)

/-- One-step unfolding of `intersectLoop` on a nonempty operand list. -/
theorem intersectLoop_cons (K : KernelOracle) (ent : DimTag) (e : Entity)
    (rest' : List Entity) :
    intersectLoop K ent (e :: rest') =
      match K (KernelCall.intersect [ent] [e.dim_tags] true true) with
      | [] => (.error .IndexError, [KernelCall.intersect [ent] [e.dim_tags] true true])
      | o :: os =>
        if (o :: os).all (fun item => item == o) then
          ((intersectLoop K o rest').1,
            KernelCall.intersect [ent] [e.dim_tags] true true ::
              (intersectLoop K o rest').2)
        else
          (.error .InconsistentBooleanResult,
            [KernelCall.intersect [ent] [e.dim_tags] true true]) := rfl

/-- Helper for C5: if some call the intersection loop issued got a fragmented
kernel response (more than one distinct dim-tag group), then the loop ended
with InconsistentBooleanResult and that call was the last one issued. -/
theorem intersectLoop_fragmented_stops (K : KernelOracle) (ent : DimTag)
    (rest : List Entity) (c : KernelCall)
    (hc : c ∈ (intersectLoop K ent rest).2)
    (hf : fragmentedOut (K c) = true) :
    (intersectLoop K ent rest).1 = .error .InconsistentBooleanResult ∧
    (intersectLoop K ent rest).2.getLast? = some c := by
  induction rest generalizing ent with
  | nil => simp [intersectLoop] at hc
  | cons e rest' ih =>
    rw [intersectLoop_cons] at hc ⊢
    rcases hout : K (KernelCall.intersect [ent] [e.dim_tags] true true) with _ | ⟨o, os⟩ <;>
      rw [hout] at hc <;> dsimp only at hc
    · simp only [List.mem_singleton] at hc
      rw [hc, hout] at hf
      simp [fragmentedOut] at hf
    · dsimp only
      by_cases hu : (o :: os).all (fun item => item == o)
      · rw [if_pos hu] at hc
        rw [if_pos hu]
        simp only [List.mem_cons] at hc
        rcases hc with hc | hc
        · rw [hc, hout] at hf
          simp only [fragmentedOut] at hf
          rw [hu] at hf
          simp at hf
        · have h := ih o hc
          refine ⟨h.1, ?_⟩
          dsimp only
          rcases hlog : (intersectLoop K o rest').2 with _ | ⟨x, xs⟩
          · rw [hlog] at hc; simp at hc
          · rw [List.getLast?_cons_cons]
            rw [hlog] at h
            exact h.2
      · rw [if_neg hu] at hc
        rw [if_neg hu]
        simp only [List.mem_singleton] at hc
        exact ⟨rfl, by simp [hc]⟩

/-- Helper: the call log of `boolean_intersection` on a nonempty list is the
loop's call log. -/
theorem boolean_intersection_log (g : Geometry) (K : KernelOracle)
    (e0 : Entity) (rest : List Entity) :
    (g.boolean_intersection K (e0 :: rest)).2.2 =
      (intersectLoop K e0.dim_tags rest).2 := by
  simp only [Geometry.boolean_intersection]
  rcases h : (intersectLoop K e0.dim_tags rest).1 <;> simp [h]

/-- Helper: a loop error propagates to the result of `boolean_intersection`. -/
theorem boolean_intersection_error (g : Geometry) (K : KernelOracle)
    (e0 : Entity) (rest : List Entity) (err : PyError)
    (h : (intersectLoop K e0.dim_tags rest).1 = .error err) :
    (g.boolean_intersection K (e0 :: rest)).2.1 = .error err := by
  simp only [Geometry.boolean_intersection]
  rw [h]

/-- C5: for an entity list of length at least 2 given to
`boolean_intersection`, if any pairwise fold step's kernel response is
fragmented into more than one (distinct) dim-tag group, the call fails with
InconsistentBooleanResult and no further fold steps run: the fragmented step's
call is the last entry of the call log. -/
theorem c5_fragmented_step_fails (g : Geometry) (K : KernelOracle)
    (e0 e1 : Entity) (rest : List Entity) (c : KernelCall)
    (hc : c ∈ (g.boolean_intersection K (e0 :: e1 :: rest)).2.2)
    (hf : fragmentedOut (K c) = true) :
    (g.boolean_intersection K (e0 :: e1 :: rest)).2.1 =
      .error .InconsistentBooleanResult ∧
    (g.boolean_intersection K (e0 :: e1 :: rest)).2.2.getLast? = some c := by
  rw [boolean_intersection_log] at hc
  have h := intersectLoop_fragmented_stops K e0.dim_tags (e1 :: rest) c hc hf
  exact ⟨boolean_intersection_error g K e0 (e1 :: rest) _ h.1,
    by rw [boolean_intersection_log]; exact h.2⟩

/-- Witness for C5: with a kernel whose every response is the two distinct
groups (3,1), (3,2), intersecting two balls fails at the first (and only
issued) call with InconsistentBooleanResult. -/
theorem c5_fragmented_step_fails_witness :
    (Geometry.init.boolean_intersection oracleTwo [ballEx1, ballEx2]).2.1 =
      .error .InconsistentBooleanResult ∧
    (Geometry.init.boolean_intersection oracleTwo [ballEx1, ballEx2]).2.2.getLast? =
      some (KernelCall.intersect [(3, 1)] [(3, 2)] true true) :=
  c5_fragmented_step_fails Geometry.init oracleTwo ballEx1 ballEx2 []
    (KernelCall.intersect [(3, 1)] [(3, 2)] true true) (by decide) (by decide)

/-- Observer: a kernel response consisting of a single uniform nonempty
dim-tag group — exactly what the asserts of the intersection fold accept. -/
def uniformNonempty (out : List DimTag) : Bool :=
  match out with
  | [] => false
  | o :: os => (o :: os).all (fun item => item == o)

/-- One-step unfolding of `specLeftFold` on a nonempty operand list. -/
theorem specLeftFold_cons (K : KernelOracle) (ent : DimTag) (e : Entity)
    (rest' : List Entity) :
    specLeftFold K ent (e :: rest') =
      ((specLeftFold K ((K (KernelCall.intersect [ent] [e.dim_tags] true true)).headD ent)
          rest').1,
        KernelCall.intersect [ent] [e.dim_tags] true true ::
          (specLeftFold K ((K (KernelCall.intersect [ent] [e.dim_tags] true true)).headD ent)
            rest').2) := rfl

/-- Helper for C6: when every kernel response is a single uniform nonempty
group, the source's intersection loop succeeds and computes exactly the
specification's left fold, issuing exactly its calls. -/
theorem intersectLoop_eq_specLeftFold (K : KernelOracle)
    (hK : ∀ c, uniformNonempty (K c) = true) (ent : DimTag) (rest : List Entity) :
    intersectLoop K ent rest =
      (.ok (specLeftFold K ent rest).1, (specLeftFold K ent rest).2) := by
  induction rest generalizing ent with
  | nil => rfl
  | cons e rest' ih =>
    rw [intersectLoop_cons, specLeftFold_cons]
    have h := hK (KernelCall.intersect [ent] [e.dim_tags] true true)
    rcases hout : K (KernelCall.intersect [ent] [e.dim_tags] true true) with _ | ⟨o, os⟩
    · rw [hout] at h
      simp [uniformNonempty] at h
    · rw [hout] at h
      simp only [uniformNonempty] at h
      dsimp only
      rw [if_pos h, ih o]
      simp

/-- Helper for C6: the specification-side fold issues one call per operand
after the first. -/
theorem specLeftFold_length (K : KernelOracle) (ent : DimTag)
    (rest : List Entity) :
    (specLeftFold K ent rest).2.length = rest.length := by
  induction rest generalizing ent with
  | nil => rfl
  | cons e rest' ih =>
    rw [specLeftFold_cons]
    simp [ih]

/-- Helper for C6: the k-th call of the specification-side fold intersects
some running dim-tag against the (k+1)-th operand's dim-tags, with
`removeObject` and `removeTool` both true. -/
theorem specLeftFold_calls (K : KernelOracle) (ent : DimTag)
    (rest : List Entity) (k : Nat) (hk : k < rest.length) :
    ∃ run, ((specLeftFold K ent rest).2)[k]? =
      some (KernelCall.intersect [run] [(rest.get ⟨k, hk⟩).dim_tags] true true) := by
  induction rest generalizing ent k with
  | nil => exact absurd hk (Nat.not_lt_zero k)
  | cons e rest' ih =>
    rw [specLeftFold_cons]
    cases k with
    | zero => exact ⟨ent, by simp⟩
    | succ k' =>
      have hk' : k' < rest'.length := Nat.lt_of_succ_lt_succ hk
      obtain ⟨run, hrun⟩ :=
        ih ((K (KernelCall.intersect [ent] [e.dim_tags] true true)).headD ent) k' hk'
      exact ⟨run, by simpa using hrun⟩

/-- C6: for every entity list of length at least 2 and every kernel whose
responses are single uniform nonempty groups, `boolean_intersection` computes
a left fold: it succeeds with the fold's final running dim-tag wrapped as an
"Intersection" composite, its call log is exactly the fold's (so exactly n-1
pairwise intersect calls for n operands), and the k-th call intersects a
running dim-tag against the (k+1)-th operand's dim-tags with `removeObject`
and `removeTool` both true. -/
theorem c6_intersection_left_fold (g : Geometry) (K : KernelOracle)
    (e0 e1 : Entity) (rest : List Entity)
    (hK : ∀ c, uniformNonempty (K c) = true) :
    g.boolean_intersection K (e0 :: e1 :: rest) =
      (g, .ok ⟨[(specLeftFold K e0.dim_tags (e1 :: rest)).1], "Intersection"⟩,
        (specLeftFold K e0.dim_tags (e1 :: rest)).2) ∧
    (specLeftFold K e0.dim_tags (e1 :: rest)).2.length = (e1 :: rest).length ∧
    ∀ k (hk : k < (e1 :: rest).length), ∃ run,
      ((specLeftFold K e0.dim_tags (e1 :: rest)).2)[k]? =
        some (KernelCall.intersect [run] [((e1 :: rest).get ⟨k, hk⟩).dim_tags]
          true true) := by
  refine ⟨?_, specLeftFold_length K e0.dim_tags (e1 :: rest),
    specLeftFold_calls K e0.dim_tags (e1 :: rest)⟩
  simp only [Geometry.boolean_intersection]
  rw [intersectLoop_eq_specLeftFold K hK]

/-- Witness for C6: with the constant single-group kernel `oracleOne` and
three balls, the theorem instantiates; the fold makes exactly two calls. -/
theorem c6_intersection_left_fold_witness :
    Geometry.init.boolean_intersection oracleOne [ballEx1, ballEx2, ballEx3] =
      (Geometry.init,
        .ok ⟨[(specLeftFold oracleOne (3, 1) [ballEx2, ballEx3]).1], "Intersection"⟩,
        (specLeftFold oracleOne (3, 1) [ballEx2, ballEx3]).2) ∧
    (specLeftFold oracleOne (3, 1) [ballEx2, ballEx3]).2.length = 2 :=
  ⟨(c6_intersection_left_fold Geometry.init oracleOne ballEx1 ballEx2 [ballEx3]
      (fun _ => rfl)).1,
   (c6_intersection_left_fold Geometry.init oracleOne ballEx1 ballEx2 [ballEx3]
      (fun _ => rfl)).2.1⟩

/-- Helper: every script-mode boolean call increments `_BOOLEAN_ID` by
exactly one, whatever its outcome (the increment runs first). -/
theorem boolean_operation_id (g : Geometry) (op : String)
    (inputs tools : List Entity) (df dl : Bool) :
    (g.boolean_operation op inputs tools df dl).1.BOOLEAN_ID = g.BOOLEAN_ID + 1 := by
  rcases inputs with _ | ⟨e0, rest⟩
  · rfl
  · simp only [Geometry.boolean_operation, List.tail_cons]
    split_ifs <;> rfl

/-- Helper: the ids a run allocates are the consecutive integers starting one
above the id counter at the start of the run. -/
theorem allocatedIds_eq_range (g : Geometry) (calls : List BoolArgs) :
    allocatedIds g calls = List.range' (g.BOOLEAN_ID + 1) calls.length := by
  induction calls generalizing g with
  | nil => rfl
  | cons c cs ih =>
    simp only [allocatedIds, List.length_cons, List.range'_succ]
    rw [ih, boolean_operation_id]

/-- Helper: the id counter after a run moved up by the number of calls. -/
theorem runBooleanOps_id (g : Geometry) (calls : List BoolArgs) :
    (runBooleanOps g calls).1.BOOLEAN_ID = g.BOOLEAN_ID + calls.length := by
  induction calls generalizing g with
  | nil => rfl
  | cons c cs ih =>
    simp only [runBooleanOps]
    rw [ih, boolean_operation_id]
    simp only [List.length_cons]
    omega

/-- Helper: the k-th result of a run is the result of the k-th call executed
from the state reached by the first k calls. -/
theorem runBooleanOps_get (g : Geometry) (calls : List BoolArgs) (k : Nat)
    (c : BoolArgs) (hc : calls[k]? = some c) :
    ((runBooleanOps g calls).2)[k]? =
      some ((runBooleanOps g (calls.take k)).1.boolean_operation c.operation
        c.input_entities c.tool_entities c.delete_first c.delete_other).2 := by
  induction calls generalizing g k with
  | nil => simp at hc
  | cons d cs ih =>
    cases k with
    | zero =>
      simp only [List.getElem?_cons_zero, Option.some.injEq] at hc
      subst hc
      simp [runBooleanOps]
    | succ k' =>
      simp only [List.getElem?_cons_succ] at hc
      simp only [runBooleanOps, List.take_succ_cons, List.getElem?_cons_succ]
      exact ih _ k' hc

/-- Helper: a script-mode boolean call on dimension-2 operands that pass
validation returns the Surface-typed composite named from the incremented
counter, with `is_list = true`. -/
theorem boolean_operation_result_dim2 (g : Geometry) (op : String) (e0 : Entity)
    (rest tools : List Entity) (df dl : Bool)
    (h2 : e0.dimension = 2)
    (hall : (rest ++ tools).all (fun e => e.dimension == e0.dimension) = true) :
    (g.boolean_operation op (e0 :: rest) tools df dl).2 =
      .ok (.surface ("bo" ++ toString (g.BOOLEAN_ID + 1)) true) := by
  simp only [Geometry.boolean_operation, List.tail_cons]
  rw [if_pos (Or.inr (Or.inl h2)), if_pos hall, h2]
  norm_num

/-- Helper: the same for dimension-3 operands, returning the Volume-typed
composite. -/
theorem boolean_operation_result_dim3 (g : Geometry) (op : String) (e0 : Entity)
    (rest tools : List Entity) (df dl : Bool)
    (h3 : e0.dimension = 3)
    (hall : (rest ++ tools).all (fun e => e.dimension == e0.dimension) = true) :
    (g.boolean_operation op (e0 :: rest) tools df dl).2 =
      .ok (.volume ("bo" ++ toString (g.BOOLEAN_ID + 1)) true) := by
  simp only [Geometry.boolean_operation, List.tail_cons]
  rw [if_pos (Or.inr (Or.inr h3)), if_pos hall, h3]
  norm_num

/-- C2: across every sequence of script-mode boolean operations on one model,
the allocated ids are 1, 2, ..., N in call order — strictly increasing, the
k-th call (1-based) using id k — and a call whose operands pass validation
with first-operand dimension 2 (resp. 3) returns a Surface-typed (resp.
Volume-typed) composite named `bo` followed by its call number, with
`is_list = true`. -/
theorem c2_boolean_ids_in_call_order (calls : List BoolArgs) :
    allocatedIds Geometry.init calls = List.range' 1 calls.length ∧
    (allocatedIds Geometry.init calls).Pairwise (· < ·) ∧
    ∀ (k : Nat) (c : BoolArgs), calls[k]? = some c →
      ∀ (e0 : Entity) (rest : List Entity), c.input_entities = e0 :: rest →
        ((rest ++ c.tool_entities).all (fun e => e.dimension == e0.dimension) = true →
          (e0.dimension = 2 →
            ((runBooleanOps Geometry.init calls).2)[k]? =
              some (.ok (.surface ("bo" ++ toString (k + 1)) true))) ∧
          (e0.dimension = 3 →
            ((runBooleanOps Geometry.init calls).2)[k]? =
              some (.ok (.volume ("bo" ++ toString (k + 1)) true)))) := by
  refine ⟨by simpa using allocatedIds_eq_range Geometry.init calls, ?_, ?_⟩
  · rw [allocatedIds_eq_range]
    exact List.pairwise_lt_range' _ _
  · intro k c hc e0 rest hin hall
    have hget := runBooleanOps_get Geometry.init calls k c hc
    rw [hin] at hget
    have hklt : k < calls.length := by
      by_contra hk
      push_neg at hk
      rw [List.getElem?_eq_none hk] at hc
      exact Option.noConfusion hc
    have hid : (runBooleanOps Geometry.init (calls.take k)).1.BOOLEAN_ID = k := by
      rw [runBooleanOps_id]
      simp only [List.length_take, Geometry.init]
      omega
    constructor
    · intro h2
      rw [boolean_operation_result_dim2 _ _ _ _ _ _ _ h2 hall, hid] at hget
      exact hget
    · intro h3
      rw [boolean_operation_result_dim3 _ _ _ _ _ _ _ h3 hall, hid] at hget
      exact hget

/-- Concrete script-mode call on two dimension-2 rectangles. -/
def argsA : BoolArgs :=
  ⟨"BooleanFragments", [rectEx, Rectangle "rect2" (2, 2) "Rectangle-code-2"],
    [], true, true⟩

/-- Concrete script-mode call on dimension-3 balls. -/
def argsB : BoolArgs :=
  ⟨"BooleanFragments", [ballEx1], [ballEx2], true, true⟩

/-- Witness for C2: running two concrete calls from a fresh model, the first
(dimension 2) returns the Surface composite named bo1 and the second
(dimension 3) the Volume composite named bo2, both with `is_list = true`. -/
theorem c2_boolean_ids_in_call_order_witness :
    ((runBooleanOps Geometry.init [argsA, argsB]).2)[0]? =
      some (.ok (.surface ("bo" ++ toString (0 + 1)) true)) ∧
    ((runBooleanOps Geometry.init [argsA, argsB]).2)[1]? =
      some (.ok (.volume ("bo" ++ toString (1 + 1)) true)) := by
  have h := c2_boolean_ids_in_call_order [argsA, argsB]
  exact ⟨((h.2.2 0 argsA rfl rectEx [Rectangle "rect2" (2, 2) "Rectangle-code-2"]
      rfl) (by decide)).1 rfl,
    ((h.2.2 1 argsB rfl ballEx1 [] rfl) (by decide)).2 rfl⟩
